import Mathlib

/-!
Shallow embedding of the NICU camera-connector vitals pipeline
(src/scripts/camera-connector-production.py, camera-to-dashboard-ocr.py,
camera-to-dashboard.py, vlm-vitals-extractor.py).

Numeric values are modelled as exact rationals: every number the scripts
handle (regex-parsed integers, one-decimal temperatures, the fixed
confidence constants) is exactly representable, and the claims under
study are order/threshold properties, not rounding properties.

Python sorted() returns the unique ascending reordering of a list; over a
linear order on the values themselves any correct sorting algorithm
computes the same list, so we embed it with insertion sort.
-/

namespace NICU

/-- The four vital kinds of the production / OCR connector scripts
(PATTERNS and VALID_RANGES keys: hr, spo2, rr, temp). -/
inductive Vital where
  | hr
  | spo2
  | rr
  | temp
deriving DecidableEq, Repr

/-- Iteration order of the PATTERNS / VALID_RANGES dicts. -/
def vitalKinds : List Vital := [.hr, .spo2, .rr, .temp]

/-- VALID_RANGES of camera-connector-production.py (identical in
camera-to-dashboard-ocr.py): hr (80, 200), spo2 (85, 100), rr (20, 80),
temp (35.0, 39.0). -/
def VALID_RANGES : Vital → ℚ × ℚ
  | .hr => (80, 200)
  | .spo2 => (85, 100)
  | .rr => (20, 80)
  | .temp => (35, 39)

/-- The range check `min_val <= value <= max_val` of extract_vitals. -/
def inRange (k : Vital) (v : ℚ) : Prop :=
  (VALID_RANGES k).1 ≤ v ∧ v ≤ (VALID_RANGES k).2

instance (k : Vital) (v : ℚ) : Decidable (inRange k v) :=
  inferInstanceAs (Decidable (_ ∧ _))

/-- Python sorted(): the ascending stable reordering of the list. -/
def pySorted (l : List ℚ) : List ℚ := List.insertionSort (· ≤ ·) l

/-- Appending to a collections.deque with maxlen: the oldest entries are
evicted from the left so that at most maxlen entries remain. -/
def dequeAppend (maxlen : Nat) (l : List ℚ) (v : ℚ) : List ℚ :=
  (l ++ [v]).drop ((l ++ [v]).length - maxlen)

/-- VitalSmoother window_size default (and SMOOTHING_WINDOW of
camera-to-dashboard-ocr.py). -/
def WINDOW_SIZE : Nat := 5

/-- State of VitalSmoother: one deque(maxlen=5) per vital kind.  Also
models the module-level vital_history dict of camera-to-dashboard-ocr.py,
which has the same shape and capacity. -/
structure VitalSmoother where
  history : Vital → List ℚ

/-- VitalSmoother.__init__: every per-kind buffer starts empty. -/
def VitalSmoother.init : VitalSmoother := ⟨fun _ => []⟩

/-- The body of the loop in VitalSmoother.smooth for a single dict entry
(key, value): append the value to the buffer of that key; if the buffer
then holds at least 3 samples return the element at index len // 2 of the
sorted buffer, otherwise return the raw value.  The identical loop body
appears in apply_smoothing of camera-to-dashboard-ocr.py. -/
def VitalSmoother.smoothOne (s : VitalSmoother) (k : Vital) (v : ℚ) :
    VitalSmoother × ℚ :=
  let h := dequeAppend WINDOW_SIZE (s.history k) v
  let s' : VitalSmoother := ⟨Function.update s.history k h⟩
  if 3 ≤ h.length then
    (s', (pySorted h).getD (h.length / 2) 0)
  else
    (s', v)

/-- VitalSmoother.smooth: iterate over the entries of the vitals dict
(in insertion order, modelled as an association list), building the
smoothed dict. -/
def VitalSmoother.smooth (s : VitalSmoother) (vitals : List (Vital × ℚ)) :
    VitalSmoother × List (Vital × ℚ) :=
  vitals.foldl
    (fun acc kv =>
      let r := acc.1.smoothOne kv.1 kv.2
      (r.1, acc.2 ++ [(kv.1, r.2)]))
    (s, [])

/-- Modelled from the spec wording of the median: the middle element
(index length / 2) of the buffer in sorted order.  The sort here is the
library mergeSort, deliberately a different algorithm from the insertion
sort that embeds Python sorted() in the code model; the two are proved
equal below. -/
def specMedian (l : List ℚ) : ℚ :=
  (l.mergeSort (fun a b => a ≤ b)).getD (l.length / 2) 0

/-!
## Extraction (extract_vitals of camera-connector-production.py)

The OCR text itself (pytesseract output) and the regex engine are not
modelled; what reaches the numeric logic of extract_vitals is, per vital
kind, the ordered sequence of pattern attempts.  Each attempt either
produces a parsed number (float(match.group(1)) succeeded) or produces
nothing (no regex match, or ValueError / IndexError — both make the loop
continue with the next pattern, so they are modelled alike as none).
A pytesseract / preprocessing exception is the Except.error case.
-/

/-- The data the try-block of extract_vitals derives from a frame. -/
structure OcrResult where
  candidates : Vital → List (Option ℚ)
  rawText : String

/-- The inner pattern loop of extract_vitals for one vital kind: take the
first pattern attempt that parses to a number inside the valid range
(the loop breaks only after a successful range check; a parse failure or
an out-of-range value falls through to the next pattern). -/
def extractKind (k : Vital) (cands : List (Option ℚ)) : Option ℚ :=
  cands.findSome? (fun c => c.bind (fun v => if inRange k v then some v else none))

/-- extract_vitals: on an internal exception return an empty dict,
confidence 0.0 and the truncated message; otherwise build the vitals dict
in PATTERNS iteration order and return confidence 0.88 when at least two
vitals were extracted, else 0.0. -/
def extract_vitals (ocr : Except String OcrResult) :
    List (Vital × ℚ) × ℚ × String :=
  match ocr with
  | .error e => ([], 0, e.take 50)
  | .ok r =>
      let vitals := vitalKinds.filterMap
        (fun k => (extractKind k (r.candidates k)).map (fun v => (k, v)))
      (vitals, if 2 ≤ vitals.length then 88 / 100 else 0, r.rawText.take 50)

/-!
## Simulation fallback and numeric conversions
-/

/-- The random draws consumed by generate_simulation_vitals:
randint(-15, 15), randint(-4, 3), randint(-8, 8), uniform(-0.4, 0.4). -/
structure SimRand where
  dhr : ℤ
  dspo2 : ℤ
  drr : ℤ
  dtemp : ℚ

/-- Python round-half-to-even of a rational to an integer. -/
def pyRoundInt (x : ℚ) : ℤ :=
  let f := ⌊x⌋
  let r := x - (f : ℚ)
  if r < 1 / 2 then f
  else if 1 / 2 < r then f + 1
  else if Even f then f else f + 1

/-- Python round(x, 1): one decimal place, ties to even (the model is
exact rationals, so no binary floating-point representation drift). -/
def pyRound1 (x : ℚ) : ℚ := (pyRoundInt (10 * x) : ℚ) / 10

/-- Python int() on a float: truncation toward zero. -/
def pyInt (q : ℚ) : ℤ := if q < 0 then -⌊-q⌋ else ⌊q⌋

/-- generate_simulation_vitals: all four kinds are always present, in the
dict literal order hr, spo2, rr, temp. -/
def generate_simulation_vitals (r : SimRand) : List (Vital × ℚ) :=
  [(.hr, ((140 + r.dhr : ℤ) : ℚ)),
   (.spo2, min 100 (max 88 ((96 + r.dspo2 : ℤ) : ℚ))),
   (.rr, ((45 + r.drr : ℤ) : ℚ)),
   (.temp, pyRound1 (368 / 10 + r.dtemp))]

/-!
## Submission (send_vitals of camera-connector-production.py)
-/

/-- Python dict.get on the vitals dict (keys are unique). -/
def dictGet (l : List (Vital × ℚ)) (k : Vital) : Option ℚ :=
  (l.find? (fun kv => decide (kv.1 = k))).map (fun kv => kv.2)

/-- Python truthiness of `vitals.get(key)`: None and 0.0 are falsy. -/
def truthy (o : Option ℚ) : Bool :=
  match o with
  | none => false
  | some v => decide (v ≠ 0)

/-- The vitals object of the payload as first constructed: every key
listed, with an explicit null (none) when the source value is missing or
falsy; hr, spo2, rr pass through int(), temp through round(·, 1). -/
def vitals_payload_raw (vitals : List (Vital × ℚ)) : List (Vital × Option ℚ) :=
  [(.hr, if truthy (dictGet vitals .hr)
         then (dictGet vitals .hr).map (fun v => ((pyInt v : ℤ) : ℚ)) else none),
   (.spo2, if truthy (dictGet vitals .spo2)
         then (dictGet vitals .spo2).map (fun v => ((pyInt v : ℤ) : ℚ)) else none),
   (.rr, if truthy (dictGet vitals .rr)
         then (dictGet vitals .rr).map (fun v => ((pyInt v : ℤ) : ℚ)) else none),
   (.temp, if truthy (dictGet vitals .temp)
         then (dictGet vitals .temp).map pyRound1 else none)]

/-- The dict comprehension dropping the None-valued entries:
payload["vitals"] = \x7bk: v for k, v in ... if v is not None\x7d. -/
def prune_vitals (entries : List (Vital × Option ℚ)) : List (Vital × Option ℚ) :=
  entries.filter (fun e => e.2.isSome)

/-- The parts of the POST body the claims are about. -/
structure Payload where
  patientId : Nat
  cameraId : String
  vitals : List (Vital × Option ℚ)
  confidence : ℚ

/-- Outcome of the single requests.post + response.json() call. -/
inductive SendResult where
  | response (body : String)
  | errorDict (msg : String)
deriving DecidableEq, Repr

def PATIENT_ID : Nat := 1
def CAMERA_ID : String := "camera-001"

/-- send_vitals: build the payload (pruning null vitals), perform one POST
with a fixed timeout; a raised exception is caught and turned into the
dict with an error key.  The network and the JSON decode of the response
are abstracted as one Except value; the constructed payload is returned
alongside so theorems can inspect what was posted. -/
def send_vitals (vitals : List (Vital × ℚ)) (confidence : ℚ)
    (net : Except String String) : Payload × SendResult :=
  let payload : Payload :=
    { patientId := PATIENT_ID, cameraId := CAMERA_ID,
      vitals := prune_vitals (vitals_payload_raw vitals),
      confidence := confidence }
  (payload,
   match net with
   | .ok body => .response body
   | .error e => .errorDict e)

/-!
## The sampling-loop tick (body of the while-loop in main of
camera-connector-production.py)

Stream connection management (reconnect timers, latency statistics,
console display) does not affect the submitted reading and is outside the
model; a tick sees either a frame (with the outcome of OCR on it) or no
frame (disconnected stream or failed read).
-/

inductive Mode where
  | SIM
  | OCR
deriving DecidableEq, Repr

/-- Non-deterministic inputs consumed by one loop iteration. -/
structure TickInput where
  frame : Option (Except String OcrResult)
  sim : SimRand
  simU : ℚ
  net : Except String String

/-- The loop variables mode / vitals / confidence plus the smoother. -/
structure LoopVars where
  mode : Mode
  vitals : List (Vital × ℚ)
  confidence : ℚ
  smoother : VitalSmoother

/-- What one tick produced. -/
structure TickResult where
  mode : Mode
  vitals : List (Vital × ℚ)
  confidence : ℚ
  ocrCount : Nat
  state : VitalSmoother
  payload : Payload
  sent : SendResult

/-- One iteration of the production main loop: attempt OCR when a frame is
available, accept the reading as OCR only when at least two vitals were
extracted (then smooth them), otherwise fall back to a smoothed simulated
reading with confidence 0.87 + uniform(0, 0.10), and send the result.
The Python guard `if not vitals or len(vitals) < 2` is equivalent to
len(vitals) < 2 since an empty dict has length 0. -/
def tick (st : VitalSmoother) (inp : TickInput) : TickResult :=
  let afterOcr : LoopVars :=
    match inp.frame with
    | none => ⟨.SIM, [], 0, st⟩
    | some o =>
        let e := extract_vitals o
        if 2 ≤ e.1.length then
          let r := st.smooth e.1
          ⟨.OCR, r.2, e.2.1, r.1⟩
        else ⟨.SIM, [], 0, st⟩
  let fin : LoopVars :=
    if afterOcr.vitals.length < 2 then
      let r := afterOcr.smoother.smooth (generate_simulation_vitals inp.sim)
      ⟨.SIM, r.2, 87 / 100 + inp.simU, r.1⟩
    else afterOcr
  let s := send_vitals fin.vitals fin.confidence inp.net
  { mode := fin.mode, vitals := fin.vitals, confidence := fin.confidence,
    ocrCount :=
      match inp.frame with
      | some o => (extract_vitals o).1.length
      | none => 0,
    state := fin.smoother, payload := s.1, sent := s.2 }

/-!
## camera-to-dashboard-ocr.py extractor variant

extract_vitals_from_text / extract_vitals_ocr share the numeric logic of
extract_vitals (identical ranges, first in-range parse per kind wins) but
additionally build a per-vital confidence-score dict (0.85 per match) and
return it instead of a single number; the exception handler returns two
empty dicts.
-/

/-- extract_vitals_from_text of camera-to-dashboard-ocr.py. -/
def extract_vitals_from_text (cands : Vital → List (Option ℚ)) :
    List (Vital × ℚ) × List (Vital × ℚ) :=
  let vitals := vitalKinds.filterMap
    (fun k => (extractKind k (cands k)).map (fun v => (k, v)))
  (vitals, vitals.map (fun kv => (kv.1, 85 / 100)))

/-- extract_vitals_ocr of camera-to-dashboard-ocr.py: the try-block
(preprocessing and two pytesseract passes) abstracted as an Except; an
exception yields two empty dicts and an error string. -/
def extract_vitals_ocr (ocr : Except String OcrResult) :
    List (Vital × ℚ) × List (Vital × ℚ) × String :=
  match ocr with
  | .error e => ([], [], "OCR Error: " ++ e)
  | .ok r =>
      let p := extract_vitals_from_text r.candidates
      (p.1, p.2, r.rawText.take 100)

/-!
## vlm-vitals-extractor.py

Six vital kinds (the four core ones plus blood pressure) with wider
validation ranges.  The model response is abstracted as: no JSON object
found in the text, a JSON object that decoded (each key absent / null,
present but not float()-convertible, or a number), or a JSON candidate
that raised JSONDecodeError, after which one regex per core kind is tried.
-/

inductive Vital6 where
  | hr
  | spo2
  | rr
  | temp
  | bp_sys
  | bp_dia
deriving DecidableEq, Repr

/-- Iteration order of the vitals dict in parse_vitals_response. -/
def vital6Kinds : List Vital6 := [.hr, .spo2, .rr, .temp, .bp_sys, .bp_dia]

/-- VALID_RANGES of vlm-vitals-extractor.py. -/
def VLM_VALID_RANGES : Vital6 → ℚ × ℚ
  | .hr => (60, 220)
  | .spo2 => (70, 100)
  | .rr => (15, 100)
  | .temp => (34, 40)
  | .bp_sys => (40, 120)
  | .bp_dia => (20, 80)

/-- The range check of parse_vitals_response. -/
def inRange6 (k : Vital6) (v : ℚ) : Prop :=
  (VLM_VALID_RANGES k).1 ≤ v ∧ v ≤ (VLM_VALID_RANGES k).2

instance (k : Vital6) (v : ℚ) : Decidable (inRange6 k v) :=
  inferInstanceAs (Decidable (_ ∧ _))

/-- The core kind a Vital6 corresponds to; the regex fallback of
parse_vitals_response only has patterns for the four core kinds. -/
def coreOf : Vital6 → Option Vital
  | .hr => some .hr
  | .spo2 => some .spo2
  | .rr => some .rr
  | .temp => some .temp
  | .bp_sys => none
  | .bp_dia => none

/-- Shape of the VLM response text as seen by parse_vitals_response.
For jsonOk, data k is: none when the key is absent or null; some none
when float(data[key]) raises; some (some v) when it parses to v.
For jsonBad (JSONDecodeError), the per-kind regex attempt is encoded the
same way. -/
inductive VlmResponse where
  | noJson
  | jsonOk (data : Vital6 → Option (Option ℚ))
  | jsonBad (fallback : Vital → Option (Option ℚ))

/-- parse_vitals_response: every kind starts at None; a parsed value is
kept only if it passes the (VLM) range check, otherwise the kind remains
None. -/
def parse_vitals_response (resp : VlmResponse) (k : Vital6) : Option ℚ :=
  match resp with
  | .noJson => none
  | .jsonOk data =>
      (data k).bind (fun c => c.bind
        (fun v => if inRange6 k v then some v else none))
  | .jsonBad fb =>
      match coreOf k with
      | none => none
      | some k4 =>
          (fb k4).bind (fun c => c.bind
            (fun v => if inRange6 k v then some v else none))

/-- extract_vitals_vlm: frame encoding, the ollama.chat call and the
clock are abstracted; an exception yields an empty dict, confidence 0.0
and inference time 0.  On success the confidence is
min(0.95, 0.5 + 0.1 * number of non-null vitals). -/
def extract_vitals_vlm (step : Except String (VlmResponse × String))
    (inferMs : ℚ) : (Vital6 → Option ℚ) × ℚ × ℚ × String :=
  match step with
  | .error e => (fun _ => none, 0, 0, "VLM Error: " ++ e)
  | .ok rt =>
      let vitals := parse_vitals_response rt.1
      let validCount :=
        (vital6Kinds.filter (fun k => (vitals k).isSome)).length
      (vitals, min (95 / 100) (1 / 2 + validCount * (1 / 10)), inferMs, rt.2)

/-- The vitals object of the VLM send_vitals payload before pruning: only
the four core keys, with the same truthiness / int() / round(·, 1)
handling as the production script. -/
def vlm_vitals_payload_raw (vitals : Vital6 → Option ℚ) :
    List (Vital × Option ℚ) :=
  [(.hr, if truthy (vitals .hr)
         then (vitals .hr).map (fun v => ((pyInt v : ℤ) : ℚ)) else none),
   (.spo2, if truthy (vitals .spo2)
         then (vitals .spo2).map (fun v => ((pyInt v : ℤ) : ℚ)) else none),
   (.rr, if truthy (vitals .rr)
         then (vitals .rr).map (fun v => ((pyInt v : ℤ) : ℚ)) else none),
   (.temp, if truthy (vitals .temp)
         then (vitals .temp).map pyRound1 else none)]

/-- send_vitals of vlm-vitals-extractor.py: after pruning, an empty
vitals object suppresses the POST entirely (an error dict is returned
without any network call); the Bool records whether a POST was issued. -/
def send_vitals_vlm (vitals : Vital6 → Option ℚ) (confidence : ℚ)
    (net : Except String String) : Payload × Bool × SendResult :=
  let payload : Payload :=
    { patientId := PATIENT_ID, cameraId := "camera-vlm-001",
      vitals := prune_vitals (vlm_vitals_payload_raw vitals),
      confidence := confidence }
  if payload.vitals.isEmpty then
    (payload, false, .errorDict "No vitals extracted")
  else
    (payload, true,
     match net with
     | .ok body => .response body
     | .error e => .errorDict e)

/-- What one iteration of the VLM main loop did with a frame. -/
structure VlmTickResult where
  vitals : Vital6 → Option ℚ
  confidence : ℚ
  submitted : Bool
  payload : Option Payload
  result : SendResult

/-- The body of the while-loop in main of vlm-vitals-extractor.py: when a
frame is available, extract; if any vital is non-null call send_vitals
(which may still suppress the POST when only blood-pressure values were
read), otherwise record an error without submitting.  No simulated
fallback exists in this script.  Without a frame nothing is extracted or
submitted. -/
def vlmTick (frame : Option (Except String (VlmResponse × String)))
    (inferMs : ℚ) (net : Except String String) : Option VlmTickResult :=
  frame.map (fun f =>
    let e := extract_vitals_vlm f inferMs
    if vital6Kinds.any (fun k => (e.1 k).isSome) then
      let s := send_vitals_vlm e.1 e.2.1 net
      ⟨e.1, e.2.1, s.2.1, some s.1, s.2.2⟩
    else
      ⟨e.1, e.2.1, false, none, .errorDict "No vitals detected in image"⟩)

/-!
## camera-to-dashboard.py (mock connector)
-/

/-- generate_mock_vitals of camera-to-dashboard.py: BASELINE plus random
jitter (randint(-10, 10), randint(-3, 2), randint(-5, 5),
uniform(-0.3, 0.3)); all four kinds always present and non-null. -/
def generate_mock_vitals (r : SimRand) : List (Vital × ℚ) :=
  [(.hr, ((140 + r.dhr : ℤ) : ℚ)),
   (.spo2, min 100 (max 88 ((96 + r.dspo2 : ℤ) : ℚ))),
   (.rr, ((45 + r.drr : ℤ) : ℚ)),
   (.temp, pyRound1 (368 / 10 + r.dtemp))]

/-- send_vitals of camera-to-dashboard.py: the vitals dict is placed in
the payload as-is (no pruning step exists; its only caller passes the
always-complete mock dict). -/
def send_vitals_mock (vitals : List (Vital × ℚ)) (confidence : ℚ)
    (net : Except String String) : Payload × SendResult :=
  ({ patientId := PATIENT_ID, cameraId := CAMERA_ID,
     vitals := vitals.map (fun kv => (kv.1, some kv.2)),
     confidence := confidence },
   match net with
   | .ok body => .response body
   | .error e => .errorDict e)

/-- State of the smoother after a sequence of single pushes starting from
the fresh smoother. -/
def runOps (ops : List (Vital × ℚ)) : VitalSmoother :=
  ops.foldl (fun st kv => (st.smoothOne kv.1 kv.2).1) VitalSmoother.init

/-- State of the smoother after pushing the sequence vs for a single
kind, starting from the fresh smoother. -/
def runPushes (k : Vital) (vs : List ℚ) : VitalSmoother :=
  vs.foldl (fun st v => (st.smoothOne k v).1) VitalSmoother.init

/-- One raw heart-rate sample of the C9 scenario: range-validate it with
the extractor logic; an accepted sample is pushed through the smoother,
a rejected one never reaches it.  The accumulator carries the smoother
state, the accepted samples and the smoothed outputs. -/
def scenarioStep (acc : VitalSmoother × List ℚ × List ℚ) (v : ℚ) :
    VitalSmoother × List ℚ × List ℚ :=
  match extractKind .hr [some v] with
  | some w =>
      let r := acc.1.smoothOne .hr w
      (r.1, acc.2.1 ++ [w], acc.2.2 ++ [r.2])
  | none => acc

/-- The C9 scenario: the raw heart-rate samples 150, 152, 300, 148, 151
fed through validation and smoothing from a fresh smoother. -/
def scenarioRun : VitalSmoother × List ℚ × List ℚ :=
  [150, 152, 300, 148, 151].foldl scenarioStep (VitalSmoother.init, [], [])

/-!
## Helper lemmas about the rolling buffer and the smoother
-/

theorem dequeAppend_eq (l : List ℚ) (v : ℚ) :
    dequeAppend WINDOW_SIZE l v = l.drop (l.length + 1 - WINDOW_SIZE) ++ [v] := by
  unfold dequeAppend WINDOW_SIZE
  rw [List.length_append, List.length_singleton,
    List.drop_append_of_le_length (by omega)]

theorem length_dequeAppend_le (l : List ℚ) (v : ℚ) :
    (dequeAppend WINDOW_SIZE l v).length ≤ WINDOW_SIZE := by
  unfold dequeAppend
  rw [List.length_drop, List.length_append, List.length_singleton]
  unfold WINDOW_SIZE
  omega

theorem mem_dequeAppend_self (l : List ℚ) (v : ℚ) :
    v ∈ dequeAppend WINDOW_SIZE l v := by
  rw [dequeAppend_eq]
  exact List.mem_append_right _ (List.mem_singleton_self v)

theorem mem_of_mem_dequeAppend {l : List ℚ} {v x : ℚ}
    (h : x ∈ dequeAppend WINDOW_SIZE l v) : x ∈ l ∨ x = v := by
  rw [dequeAppend_eq] at h
  rcases List.mem_append.1 h with h | h
  · exact Or.inl (List.drop_subset _ _ h)
  · right
    simpa using h

/-- The two embeddings of an ascending sort of rationals agree: a sorted
list is a permutation of its input and ascending order determines it
uniquely. -/
theorem mergeSort_eq_pySorted (l : List ℚ) :
    l.mergeSort (fun a b => a ≤ b) = pySorted l :=
  List.eq_of_perm_of_sorted
    ((List.mergeSort_perm l _).trans (List.perm_insertionSort _ l).symm)
    (List.sorted_mergeSort' l)
    (List.sorted_insertionSort _ l)

theorem smoothOne_fst (s : VitalSmoother) (k : Vital) (v : ℚ) :
    (s.smoothOne k v).1 =
      ⟨Function.update s.history k (dequeAppend WINDOW_SIZE (s.history k) v)⟩ := by
  unfold VitalSmoother.smoothOne
  dsimp only
  split <;> rfl

theorem smoothOne_history_self (s : VitalSmoother) (k : Vital) (v : ℚ) :
    (s.smoothOne k v).1.history k = dequeAppend WINDOW_SIZE (s.history k) v := by
  rw [smoothOne_fst]
  exact Function.update_same k _ s.history

theorem smoothOne_history_other (s : VitalSmoother) {k k' : Vital} (v : ℚ)
    (h : k' ≠ k) : (s.smoothOne k v).1.history k' = s.history k' := by
  rw [smoothOne_fst]
  exact Function.update_noteq h _ s.history

theorem smoothOne_snd (s : VitalSmoother) (k : Vital) (v : ℚ) :
    (s.smoothOne k v).2 =
      if 3 ≤ (dequeAppend WINDOW_SIZE (s.history k) v).length
      then specMedian (dequeAppend WINDOW_SIZE (s.history k) v)
      else v := by
  unfold VitalSmoother.smoothOne
  split
  · next h =>
      rw [if_pos h]
      unfold specMedian
      rw [mergeSort_eq_pySorted]
  · next h => rw [if_neg h]

theorem specMedian_mem {l : List ℚ} (h : l ≠ []) : specMedian l ∈ l := by
  unfold specMedian
  have hperm := List.mergeSort_perm l (fun a b => a ≤ b)
  have hlt : l.length / 2 < (l.mergeSort (fun a b => a ≤ b)).length := by
    rw [hperm.length_eq]
    have := List.length_pos.2 h
    omega
  rw [List.getD_eq_getElem?_getD, List.getElem?_eq_getElem hlt]
  exact hperm.mem_iff.1 (List.getElem_mem hlt)

/-- The smoothed value returned for one pushed entry is an element of the
post-push buffer of that kind. -/
theorem smoothOne_snd_mem (s : VitalSmoother) (k : Vital) (v : ℚ) :
    (s.smoothOne k v).2 ∈ (s.smoothOne k v).1.history k := by
  rw [smoothOne_snd, smoothOne_history_self]
  split
  · next hge =>
      refine specMedian_mem ?_
      intro hnil
      rw [hnil] at hge
      simp [WINDOW_SIZE] at hge
  · exact mem_dequeAppend_self _ _

theorem smooth_go_keys (l : List (Vital × ℚ)) :
    ∀ (s : VitalSmoother) (acc : List (Vital × ℚ)),
    ((l.foldl
        (fun acc kv =>
          let r := acc.1.smoothOne kv.1 kv.2
          (r.1, acc.2 ++ [(kv.1, r.2)]))
        (s, acc)).2).map Prod.fst = acc.map Prod.fst ++ l.map Prod.fst := by
  induction l with
  | nil => intro s acc; simp
  | cons kv t ih =>
      intro s acc
      simp only [List.foldl_cons]
      rw [ih]
      simp

theorem smooth_keys (s : VitalSmoother) (l : List (Vital × ℚ)) :
    ((s.smooth l).2).map Prod.fst = l.map Prod.fst := by
  unfold VitalSmoother.smooth
  rw [smooth_go_keys]
  simp

theorem smooth_length (s : VitalSmoother) (l : List (Vital × ℚ)) :
    ((s.smooth l).2).length = l.length := by
  have h := congrArg List.length (smooth_keys s l)
  simpa using h

theorem keys_complete {l : List (Vital × ℚ)}
    (h : l.map Prod.fst = vitalKinds) (k : Vital) : ∃ v, (k, v) ∈ l := by
  have hk : k ∈ l.map Prod.fst := by
    rw [h]
    cases k <;> simp [vitalKinds]
  obtain ⟨kv, hmem, hfst⟩ := List.mem_map.1 hk
  exact ⟨kv.2, by rwa [← hfst, Prod.mk.eta]⟩

theorem runOps_history_le (ops : List (Vital × ℚ)) :
    ∀ (s : VitalSmoother),
      (∀ j, (s.history j).length ≤ WINDOW_SIZE) →
      ∀ j, ((ops.foldl (fun st kv => (st.smoothOne kv.1 kv.2).1) s).history j).length
              ≤ WINDOW_SIZE := by
  induction ops with
  | nil => intro s hs j; simpa using hs j
  | cons kv t ih =>
      intro s hs j
      simp only [List.foldl_cons]
      refine ih _ ?_ j
      intro j'
      by_cases hj : j' = kv.1
      · subst hj
        rw [smoothOne_history_self]
        exact length_dequeAppend_le _ _
      · rw [smoothOne_history_other _ _ hj]
        exact hs j'

theorem runPushes_history_subset (k : Vital) (vs : List ℚ) :
    ∀ (s : VitalSmoother) (x : ℚ),
      x ∈ ((vs.foldl (fun st v => (st.smoothOne k v).1) s).history k) →
      x ∈ vs ∨ x ∈ s.history k := by
  induction vs with
  | nil => intro s x hx; exact Or.inr hx
  | cons v t ih =>
      intro s x hx
      simp only [List.foldl_cons] at hx
      rcases ih _ x hx with h | h
      · exact Or.inl (List.mem_cons_of_mem _ h)
      · rw [smoothOne_history_self] at h
        rcases mem_of_mem_dequeAppend h with h | h
        · exact Or.inr h
        · exact Or.inl (by simp [h])

end NICU

namespace NICU

/-- Helper: every element of a buffer produced by pushing the sequence vs
of one kind into a fresh smoother is one of the pushed values. -/
theorem runPushes_subset {k : Vital} {vs : List ℚ} {x : ℚ}
    (h : x ∈ ((vs.foldl (fun st v => (st.smoothOne k v).1) VitalSmoother.init).history k)) :
    x ∈ vs := by
  rcases runPushes_history_subset k vs VitalSmoother.init x h with h' | h'
  · exact h'
  · simp [VitalSmoother.init] at h'

end NICU

/-- C1: after pushing a newly extracted value of a kind into the
smoother, if that kind now buffers at least 3 samples the smoothed output
is the median of the buffer — the middle element (index length / 2) of
the sorted buffer — and below that threshold it is the raw value
unchanged. -/
theorem NICU.claim_C1 (s : NICU.VitalSmoother) (k : NICU.Vital) (v : ℚ) :
    (3 ≤ ((s.smoothOne k v).1.history k).length →
      (s.smoothOne k v).2 = NICU.specMedian ((s.smoothOne k v).1.history k)) ∧
    (((s.smoothOne k v).1.history k).length < 3 →
      (s.smoothOne k v).2 = v) := by
  rw [NICU.smoothOne_snd, NICU.smoothOne_history_self]
  constructor
  · intro h
    rw [if_pos h]
  · intro h
    rw [if_neg (by omega)]

/-- Witness for C1: pushing 148 onto the buffer [150, 152] reaches the
3-sample threshold, so the output is the spec median of the new buffer. -/
theorem NICU.claim_C1_witness :
    ((NICU.VitalSmoother.mk (fun _ => [150, 152])).smoothOne .hr 148).2 =
      NICU.specMedian
        (((NICU.VitalSmoother.mk (fun _ => [150, 152])).smoothOne .hr 148).1.history .hr) :=
  (NICU.claim_C1 ⟨fun _ => [150, 152]⟩ .hr 148).1 (by decide)

/-- C8: buffers never exceed the window size 5 under any push sequence;
pushing into a full buffer evicts the oldest sample; pushing one kind
leaves every other kind unchanged. -/
theorem NICU.claim_C8 (ops : List (NICU.Vital × ℚ)) (s : NICU.VitalSmoother)
    (k k' : NICU.Vital) (v : ℚ) :
    ((NICU.runOps ops).history k).length ≤ NICU.WINDOW_SIZE ∧
    ((s.history k).length = NICU.WINDOW_SIZE →
      (s.smoothOne k v).1.history k = (s.history k).drop 1 ++ [v]) ∧
    (k' ≠ k → (s.smoothOne k v).1.history k' = s.history k') := by
  refine ⟨?_, ?_, fun h => NICU.smoothOne_history_other s v h⟩
  · unfold NICU.runOps
    exact NICU.runOps_history_le ops NICU.VitalSmoother.init
      (fun j => by simp [NICU.VitalSmoother.init]) k
  · intro h
    rw [NICU.smoothOne_history_self, NICU.dequeAppend_eq, h]
    simp [NICU.WINDOW_SIZE]

/-- Witness for C8 at concrete inputs: a one-push run stays within the
window; pushing 6 onto the full buffer [1, 2, 3, 4, 5] drops the 1; the
spo2 buffer is untouched by an hr push. -/
theorem NICU.claim_C8_witness :
    ((NICU.runOps [(NICU.Vital.hr, 150)]).history .hr).length ≤ NICU.WINDOW_SIZE ∧
    ((NICU.VitalSmoother.mk (fun _ => [1, 2, 3, 4, 5])).smoothOne .hr 6).1.history .hr =
      ((NICU.VitalSmoother.mk (fun _ => [1, 2, 3, 4, 5])).history .hr).drop 1 ++ [6] ∧
    ((NICU.VitalSmoother.mk (fun _ => [1, 2, 3, 4, 5])).smoothOne .hr 6).1.history .spo2 =
      (NICU.VitalSmoother.mk (fun _ => [1, 2, 3, 4, 5])).history .spo2 :=
  ⟨(NICU.claim_C8 [(NICU.Vital.hr, 150)] ⟨fun _ => [1, 2, 3, 4, 5]⟩ .hr .spo2 6).1,
   (NICU.claim_C8 [(NICU.Vital.hr, 150)] ⟨fun _ => [1, 2, 3, 4, 5]⟩ .hr .spo2 6).2.1
     (by decide),
   (NICU.claim_C8 [(NICU.Vital.hr, 150)] ⟨fun _ => [1, 2, 3, 4, 5]⟩ .hr .spo2 6).2.2
     (by decide)⟩

namespace NICU

end NICU

/-- C9: with heart-rate range (80, 200), the 300 sample is discarded
before smoothing (the accepted samples are exactly 150, 152, 148, 151,
and 300 is nowhere in the final buffer), and the final smoothed value is
151, which lies within [148, 152]. -/
theorem NICU.claim_C9 :
    NICU.scenarioRun.2.1 = [150, 152, 148, 151] ∧
    NICU.scenarioRun.1.history .hr = [150, 152, 148, 151] ∧
    ((300 : ℚ) ∉ NICU.scenarioRun.1.history .hr) ∧
    ∃ m, NICU.scenarioRun.2.2.getLast? = some m ∧ 148 ≤ m ∧ m ≤ 152 :=
  ⟨by decide, by decide, by decide, 151, by decide, by decide, by decide⟩

/-- C10: the smoothed value for a kind is always an element of the
post-push buffer of that kind (never a fabricated average), and therefore
if every pushed value is in range, so is every smoothed value. -/
theorem NICU.claim_C10 (vs : List ℚ) (k : NICU.Vital) (v : ℚ) :
    ((NICU.runPushes k vs).smoothOne k v).2 ∈
      ((NICU.runPushes k vs).smoothOne k v).1.history k ∧
    ((∀ x ∈ vs ++ [v], NICU.inRange k x) →
      NICU.inRange k ((NICU.runPushes k vs).smoothOne k v).2) := by
  constructor
  · exact NICU.smoothOne_snd_mem _ _ _
  · intro hall
    have hmem := NICU.smoothOne_snd_mem (NICU.runPushes k vs) k v
    rw [NICU.smoothOne_history_self] at hmem
    rcases NICU.mem_of_mem_dequeAppend hmem with h | h
    · have hvs : ((NICU.runPushes k vs).smoothOne k v).2 ∈ vs := by
        unfold NICU.runPushes at h
        exact @NICU.runPushes_subset k vs _ h
      exact hall _ (List.mem_append_left _ hvs)
    · rw [h]
      exact hall v (List.mem_append_right _ (List.mem_singleton_self v))

/-- Witness for C10: pushing 150, 152 then 148 (all in the heart-rate
range) yields a smoothed value in range. -/
theorem NICU.claim_C10_witness :
    NICU.inRange NICU.Vital.hr ((NICU.runPushes .hr [150, 152]).smoothOne .hr 148).2 :=
  (NICU.claim_C10 [150, 152] .hr 148).2 (by decide)

namespace NICU

/-- Any value the per-kind pattern loop accepts passed its range check. -/
theorem inRange_of_extractKind {k : Vital} {cs : List (Option ℚ)} {v : ℚ}
    (h : extractKind k cs = some v) : inRange k v := by
  unfold extractKind at h
  obtain ⟨c, -, hc⟩ := List.exists_of_findSome?_eq_some h
  cases c with
  | none => exact Option.noConfusion hc
  | some w =>
      have hc' : (if inRange k w then some w else none) = some v := hc
      split at hc'
      · next hin =>
          cases hc'
          exact hin
      · exact Option.noConfusion hc'

/-- Any value parse_vitals_response keeps in a kind passed the VLM range
check (shared by the JSON path and the regex fallback path). -/
theorem inRange6_of_chain {k : Vital6} {c : Option (Option ℚ)} {v : ℚ}
    (h : (c.bind (fun c2 => c2.bind
           (fun w => if inRange6 k w then some w else none))) = some v) :
    inRange6 k v := by
  cases c with
  | none => exact Option.noConfusion h
  | some c2 =>
      cases c2 with
      | none => exact Option.noConfusion h
      | some w =>
          have h' : (if inRange6 k w then some w else none) = some v := h
          split at h'
          · next hin =>
              cases h'
              exact hin
          · exact Option.noConfusion h'

end NICU

/-- C2: every value present in an extracted vitals map lies within the
fixed valid range of its kind, for the production extractor, the VLM response
parser and the OCR-script text extractor; hence a parsed value outside
the range is never present (it is discarded, not clamped). -/
theorem NICU.claim_C2 :
    (∀ (ocr : Except String NICU.OcrResult) (k : NICU.Vital) (v : ℚ),
        (k, v) ∈ (NICU.extract_vitals ocr).1 → NICU.inRange k v) ∧
    (∀ (resp : NICU.VlmResponse) (k : NICU.Vital6) (v : ℚ),
        NICU.parse_vitals_response resp k = some v → NICU.inRange6 k v) ∧
    (∀ (cands : NICU.Vital → List (Option ℚ)) (k : NICU.Vital) (v : ℚ),
        (k, v) ∈ (NICU.extract_vitals_from_text cands).1 → NICU.inRange k v) := by
  refine ⟨?_, ?_, ?_⟩
  · intro ocr k v hmem
    cases ocr with
    | error e => simp [NICU.extract_vitals] at hmem
    | ok r =>
        simp only [NICU.extract_vitals] at hmem
        obtain ⟨k0, -, hfk⟩ := List.mem_filterMap.1 hmem
        obtain ⟨w, hw, heq⟩ := Option.map_eq_some'.1 hfk
        cases heq
        exact NICU.inRange_of_extractKind hw
  · intro resp k v h
    unfold NICU.parse_vitals_response at h
    cases resp with
    | noJson => exact Option.noConfusion h
    | jsonOk data => exact NICU.inRange6_of_chain h
    | jsonBad fb =>
        cases hk : NICU.coreOf k with
        | none => rw [hk] at h; exact Option.noConfusion h
        | some k4 => rw [hk] at h; exact NICU.inRange6_of_chain h
  · intro cands k v hmem
    simp only [NICU.extract_vitals_from_text] at hmem
    obtain ⟨k0, -, hfk⟩ := List.mem_filterMap.1 hmem
    obtain ⟨w, hw, heq⟩ := Option.map_eq_some'.1 hfk
    cases heq
    exact NICU.inRange_of_extractKind hw

/-- Witness for C2: a heart-rate pattern list offering an out-of-range
300, a parse failure, then 150 yields only the in-range 150; a VLM JSON
with hr 100 keeps it; the OCR-script extractor accepts spo2 95. -/
theorem NICU.claim_C2_witness :
    NICU.inRange .hr 150 ∧ NICU.inRange6 .hr 100 ∧ NICU.inRange .spo2 95 :=
  ⟨NICU.claim_C2.1
      (.ok ⟨fun k => match k with
            | .hr => [some 300, none, some 150]
            | _ => [], "HR 150"⟩) .hr 150 (by decide),
   NICU.claim_C2.2.1
      (.jsonOk (fun k => match k with
            | .hr => some (some 100)
            | _ => none)) .hr 100 (by decide),
   NICU.claim_C2.2.2
      (fun k => match k with
            | .spo2 => [some 95]
            | _ => []) .spo2 95 (by decide)⟩

/-- C3: extraction that raises internally fails soft in all three
extractors: the caught exception produces an empty vitals map, a zero
confidence (the OCR-script variant returns its empty per-kind
confidence-score dict) and an error string.  In the embedding the
extractors are total functions, so no exception can reach the caller. -/
theorem NICU.claim_C3 :
    (∀ e : String, NICU.extract_vitals (.error e) = ([], 0, e.take 50)) ∧
    (∀ (e : String) (t : ℚ),
        NICU.extract_vitals_vlm (.error e) t =
          (fun _ => none, 0, 0, "VLM Error: " ++ e)) ∧
    (∀ e : String,
        NICU.extract_vitals_ocr (.error e) = ([], [], "OCR Error: " ++ e)) :=
  ⟨fun _ => rfl, fun _ _ => rfl, fun _ => rfl⟩

namespace NICU

/-- Tick equation, disconnected / frame-less case: the reading submitted
is the smoothed simulated one. -/
theorem tick_none (st : VitalSmoother) (sim : SimRand) (simU : ℚ)
    (net : Except String String) :
    tick st ⟨none, sim, simU, net⟩ =
      { mode := Mode.SIM,
        vitals := (st.smooth (generate_simulation_vitals sim)).2,
        confidence := 87 / 100 + simU,
        ocrCount := 0,
        state := (st.smooth (generate_simulation_vitals sim)).1,
        payload := (send_vitals (st.smooth (generate_simulation_vitals sim)).2
                      (87 / 100 + simU) net).1,
        sent := (send_vitals (st.smooth (generate_simulation_vitals sim)).2
                      (87 / 100 + simU) net).2 } := by
  simp only [tick]
  rw [if_pos (by simp)]

/-- Tick equation when a frame is present and OCR yields at least two
vitals: the smoothed OCR reading is submitted with the OCR confidence. -/
theorem tick_some_of_ge (st : VitalSmoother) (o : Except String OcrResult)
    (sim : SimRand) (simU : ℚ) (net : Except String String)
    (h2 : 2 ≤ (extract_vitals o).1.length) :
    tick st ⟨some o, sim, simU, net⟩ =
      { mode := Mode.OCR,
        vitals := (st.smooth (extract_vitals o).1).2,
        confidence := (extract_vitals o).2.1,
        ocrCount := (extract_vitals o).1.length,
        state := (st.smooth (extract_vitals o).1).1,
        payload := (send_vitals (st.smooth (extract_vitals o).1).2
                      ((extract_vitals o).2.1) net).1,
        sent := (send_vitals (st.smooth (extract_vitals o).1).2
                      ((extract_vitals o).2.1) net).2 } := by
  simp only [tick]
  rw [if_pos h2]
  dsimp only
  rw [smooth_length]
  rw [if_neg (by omega)]

/-- Tick equation when a frame is present but OCR yields fewer than two
vitals: the simulated fallback is submitted; the extracted count is
still recorded. -/
theorem tick_some_of_lt (st : VitalSmoother) (o : Except String OcrResult)
    (sim : SimRand) (simU : ℚ) (net : Except String String)
    (h2 : ¬ 2 ≤ (extract_vitals o).1.length) :
    tick st ⟨some o, sim, simU, net⟩ =
      { mode := Mode.SIM,
        vitals := (st.smooth (generate_simulation_vitals sim)).2,
        confidence := 87 / 100 + simU,
        ocrCount := (extract_vitals o).1.length,
        state := (st.smooth (generate_simulation_vitals sim)).1,
        payload := (send_vitals (st.smooth (generate_simulation_vitals sim)).2
                      (87 / 100 + simU) net).1,
        sent := (send_vitals (st.smooth (generate_simulation_vitals sim)).2
                      (87 / 100 + simU) net).2 } := by
  simp only [tick]
  rw [if_neg h2]
  dsimp only
  rw [if_pos (by simp)]

/-- The 0.88 confidence is exactly the at-least-two-vitals case of
extract_vitals. -/
theorem extract_vitals_conf_of_ge {o : Except String OcrResult}
    (h2 : 2 ≤ (extract_vitals o).1.length) :
    (extract_vitals o).2.1 = 88 / 100 := by
  cases o with
  | error e => simp [extract_vitals] at h2
  | ok r =>
      simp only [extract_vitals] at h2 ⊢
      rw [if_pos h2]

/-- The key set of the smoothed simulated reading is all four kinds. -/
theorem smooth_sim_keys (st : VitalSmoother) (sim : SimRand) :
    ((st.smooth (generate_simulation_vitals sim)).2).map Prod.fst = vitalKinds := by
  rw [smooth_keys]
  rfl

end NICU

/-- C5: every confidence the pipeline produces and submits lies in
[0, 1] — the production tick (OCR confidence 0.88, simulated fallback
0.87 + uniform(0, 0.10)) and the VLM extractor (0 on error, otherwise
min(0.95, 0.5 + 0.1 per extracted vital)).  Exact rationals model the
floats, so NaN is not expressible and non-negativity is part of the
bound. -/
theorem NICU.claim_C5 (st : NICU.VitalSmoother) (inp : NICU.TickInput)
    (step : Except String (NICU.VlmResponse × String)) (t : ℚ)
    (h0 : 0 ≤ inp.simU) (h1 : inp.simU ≤ 1 / 10) :
    (0 ≤ (NICU.tick st inp).confidence ∧ (NICU.tick st inp).confidence ≤ 1) ∧
    (0 ≤ (NICU.extract_vitals_vlm step t).2.1 ∧
      (NICU.extract_vitals_vlm step t).2.1 ≤ 1) := by
  constructor
  · obtain ⟨frame, sim, simU, net⟩ := inp
    dsimp only at h0 h1
    cases frame with
    | none =>
        rw [NICU.tick_none]
        dsimp only
        constructor <;> linarith
    | some o =>
        by_cases h2 : 2 ≤ (NICU.extract_vitals o).1.length
        · rw [NICU.tick_some_of_ge st o sim simU net h2]
          dsimp only
          rw [NICU.extract_vitals_conf_of_ge h2]
          norm_num
        · rw [NICU.tick_some_of_lt st o sim simU net h2]
          dsimp only
          constructor <;> linarith
  · cases step with
    | error e =>
        simp only [NICU.extract_vitals_vlm]
        norm_num
    | ok rt =>
        simp only [NICU.extract_vitals_vlm]
        constructor
        · refine le_min (by norm_num) ?_
          positivity
        · exact le_trans (min_le_left _ _) (by norm_num)

/-- Witness for C5 with the uniform draw at 1/20. -/
theorem NICU.claim_C5_witness :
    (0 ≤ (NICU.tick NICU.VitalSmoother.init
            ⟨none, ⟨0, 0, 0, 0⟩, 1 / 20, .ok "r"⟩).confidence ∧
      (NICU.tick NICU.VitalSmoother.init
            ⟨none, ⟨0, 0, 0, 0⟩, 1 / 20, .ok "r"⟩).confidence ≤ 1) ∧
    (0 ≤ (NICU.extract_vitals_vlm (.error "down") 0).2.1 ∧
      (NICU.extract_vitals_vlm (.error "down") 0).2.1 ≤ 1) :=
  NICU.claim_C5 NICU.VitalSmoother.init ⟨none, ⟨0, 0, 0, 0⟩, 1 / 20, .ok "r"⟩
    (.error "down") 0 (by norm_num) (by norm_num)

/-- C4 (amended): in the production connector sampling loop, a tick whose
OCR extraction yields fewer than two vitals never submits in OCR mode —
it substitutes the smoothed simulated reading, which contains all four
vital kinds — and an OCR-mode submission always carries at least two
vitals. -/
theorem NICU.claim_C4 (st : NICU.VitalSmoother) (inp : NICU.TickInput) :
    ((NICU.tick st inp).ocrCount < 2 →
      (NICU.tick st inp).mode = NICU.Mode.SIM ∧
      ∀ k : NICU.Vital, ∃ v, (k, v) ∈ (NICU.tick st inp).vitals) ∧
    ((NICU.tick st inp).mode = NICU.Mode.OCR →
      2 ≤ (NICU.tick st inp).vitals.length) := by
  obtain ⟨frame, sim, simU, net⟩ := inp
  cases frame with
  | none =>
      rw [NICU.tick_none]
      refine ⟨fun _ => ⟨rfl, fun k => ?_⟩, fun hmode => ?_⟩
      · exact NICU.keys_complete (NICU.smooth_sim_keys st sim) k
      · exact absurd hmode (by simp)
  | some o =>
      by_cases h2 : 2 ≤ (NICU.extract_vitals o).1.length
      · rw [NICU.tick_some_of_ge st o sim simU net h2]
        dsimp only
        refine ⟨fun hcount => absurd h2 (by omega), fun _ => ?_⟩
        rw [NICU.smooth_length]
        exact h2
      · rw [NICU.tick_some_of_lt st o sim simU net h2]
        dsimp only
        refine ⟨fun _ => ⟨rfl, fun k => ?_⟩, fun hmode => ?_⟩
        · exact NICU.keys_complete (NICU.smooth_sim_keys st sim) k
        · exact absurd hmode (by simp)

/-- Witness for C4: a frame-less tick extracts zero vitals, so the
submitted reading is simulated and covers all four kinds. -/
theorem NICU.claim_C4_witness :
    (NICU.tick NICU.VitalSmoother.init ⟨none, ⟨0, 0, 0, 0⟩, 0, .ok "r"⟩).mode =
        NICU.Mode.SIM ∧
    ∀ k : NICU.Vital, ∃ v,
      (k, v) ∈ (NICU.tick NICU.VitalSmoother.init
                  ⟨none, ⟨0, 0, 0, 0⟩, 0, .ok "r"⟩).vitals :=
  (NICU.claim_C4 NICU.VitalSmoother.init ⟨none, ⟨0, 0, 0, 0⟩, 0, .ok "r"⟩).1
    (by decide)

/-- Counterexample to C4 as stated over every sampling loop of the
repository: in the VLM extractor loop, a frame whose response carries
exactly one valid vital (hr 100) produces a reading with one non-null
vital, and the loop submits it (POST issued, a one-entry vitals object)
without substituting any simulated reading. -/
theorem NICU.claim_C4_counterexample :
    ((NICU.vlmTick
        (some (.ok (.jsonOk (fun k => match k with
              | .hr => some (some 100)
              | _ => none), "resp"))) 0 (.ok "ok")).map
      (fun r =>
        ((NICU.vital6Kinds.filter (fun k => (r.vitals k).isSome)).length,
         r.submitted,
         r.payload.map (fun p => p.vitals.length)))) = some (1, true, some 1) := by
  decide

namespace NICU

/-- A payload vitals entry that survived pruning can only come from a
truthy source dict value. -/
theorem truthy_source_of_isSome {d : Option ℚ} {f : ℚ → ℚ}
    (h : (if truthy d then d.map f else none).isSome = true) :
    d.isSome = true := by
  by_cases ht : truthy d = true
  · cases d with
    | none => simp [truthy] at ht
    | some v => rfl
  · rw [if_neg ht] at h
    simp at h

end NICU

/-- C6: the vitals object of a submitted POST body has a key only for
vitals present in the reading with a non-null value, and no entry of the
pruned object is null — for the production send_vitals (explicit pruning)
and for the mock-connector send_vitals (whose payload passes the
always-complete vitals dict through untouched). -/
theorem NICU.claim_C6 :
    (∀ (vitals : List (NICU.Vital × ℚ)) (conf : ℚ) (net : Except String String)
       (k : NICU.Vital) (o : Option ℚ),
       (k, o) ∈ (NICU.send_vitals vitals conf net).1.vitals →
         o.isSome = true ∧ (NICU.dictGet vitals k).isSome = true) ∧
    (∀ (vitals : List (NICU.Vital × ℚ)) (conf : ℚ) (net : Except String String)
       (k : NICU.Vital) (o : Option ℚ),
       (k, o) ∈ (NICU.send_vitals_mock vitals conf net).1.vitals →
         o.isSome = true ∧ (NICU.dictGet vitals k).isSome = true) := by
  constructor
  · intro vitals conf net k o hmem
    have hm : (k, o) ∈ NICU.prune_vitals (NICU.vitals_payload_raw vitals) := hmem
    unfold NICU.prune_vitals at hm
    have hs : o.isSome = true := by
      have hp := List.of_mem_filter hm
      simpa using hp
    have hraw := List.mem_of_mem_filter hm
    refine ⟨hs, ?_⟩
    simp only [NICU.vitals_payload_raw, List.mem_cons, List.not_mem_nil,
      or_false] at hraw
    rcases hraw with h | h | h | h <;>
      (obtain ⟨hk, ho⟩ := Prod.mk.injEq .. |>.mp h
       subst hk
       rw [ho] at hs
       exact NICU.truthy_source_of_isSome hs)
  · intro vitals conf net k o hmem
    obtain ⟨kv, hib, heq⟩ := List.mem_map.1 hmem
    obtain ⟨hk, ho⟩ := Prod.mk.injEq .. |>.mp heq
    subst hk
    refine ⟨by rw [← ho]; rfl, ?_⟩
    unfold NICU.dictGet
    rw [Option.isSome_map']
    exact List.find?_isSome.mpr ⟨kv, hib, by simp⟩

/-- Witness for C6: submitting the one-vital reading hr 150 puts the key
hr in the body, backed by the non-null source value. -/
theorem NICU.claim_C6_witness :
    ((some (150 : ℚ)).isSome = true ∧
      (NICU.dictGet [(NICU.Vital.hr, 150)] .hr).isSome = true) ∧
    ((some (140 : ℚ)).isSome = true ∧
      (NICU.dictGet [(NICU.Vital.hr, 140)] .hr).isSome = true) :=
  ⟨NICU.claim_C6.1 [(NICU.Vital.hr, 150)] (1 / 2) (.ok "r") .hr (some 150)
      (by decide),
   NICU.claim_C6.2 [(NICU.Vital.hr, 140)] (1 / 2) (.ok "r") .hr (some 140)
      (by decide)⟩

/-- C7: a failed POST is caught and returned as an error dict — the
submitter never raises — and the submission outcome has no influence on
the tick: the smoother state, the submitted vitals and the mode are the
same whatever the network result, so a failed reading is simply dropped
(the tick makes exactly one send_vitals call, and the next tick is the
only retry). -/
theorem NICU.claim_C7 (vitals : List (NICU.Vital × ℚ)) (conf : ℚ) (e : String)
    (st : NICU.VitalSmoother) (f : Option (Except String NICU.OcrResult))
    (sim : NICU.SimRand) (u : ℚ) (n1 n2 : Except String String) :
    (NICU.send_vitals vitals conf (.error e)).2 = NICU.SendResult.errorDict e ∧
    (NICU.tick st ⟨f, sim, u, n1⟩).state = (NICU.tick st ⟨f, sim, u, n2⟩).state ∧
    (NICU.tick st ⟨f, sim, u, n1⟩).vitals = (NICU.tick st ⟨f, sim, u, n2⟩).vitals ∧
    (NICU.tick st ⟨f, sim, u, n1⟩).mode = (NICU.tick st ⟨f, sim, u, n2⟩).mode :=
  ⟨rfl, rfl, rfl, rfl⟩
